import Mathlib

/-!
Formal model of the SmartRoute client core: the live GPS tracking /
map-synchronization state machine (`static/js/geolocation.js`), the route
overlay lifecycle (`static/js/map_utils.js`) and the route orchestration
logic (`static/js/route_logic.js`), translated as a shallow embedding.

State is modelled explicitly; DOM / map-widget side effects are recorded as
an effect list so that statements such as "the viewport is recentered" or
"no network request is issued" become membership facts about the effects a
call emits.  Numbers carried by the geolocation API (coordinates, accuracy
in meters, zoom levels) are modelled as rationals.
-/

namespace SmartRoute
/-- Projected map coordinate, the result of `ol.proj.fromLonLat([lon, lat])`.
The projection is modelled as an injective tagging of the lon/lat pair; the
claims only compare coordinates for identity. -/
structure Coord where
  x : ℚ
  y : ℚ
deriving DecidableEq

/-- Model of `ol.proj.fromLonLat([lon, lat])`. -/
def fromLonLat (lon lat : ℚ) : Coord := ⟨lon, lat⟩

/-- Raw sensor payload delivered to a geolocation callback:
`pos.coords.{latitude, longitude, accuracy}`. -/
structure GeoPosition where
  latitude : ℚ
  longitude : ℚ
  accuracy : ℚ
deriving DecidableEq

/-- Status texts produced by `geolocation.js` via `updateStatus`.  The
message catalogue is modelled as an inductive carrying the data that the
source interpolates into the string. -/
inductive Msg where
  | mapNotInit
  | initialFix (acc : ℚ)
  | lowAccuracy (acc : ℚ)
  | active (acc : ℚ) (following : Bool)
  | geoUnsupported
  | alreadyWatching
  | stopped
  | followOn
  | followOff
  | followDisabledByDrag
deriving DecidableEq

/-- Observable effects of the geolocation module: map view writes, status
updates, calls into the browser geolocation API, follow-button updates. -/
inductive Eff where
  | setCenter (c : Coord)
  | setZoom (z : ℚ)
  | status (m : Msg)
  | watchPositionCall
  | clearWatchCall
  | setFollowButton (isOn : Bool)
deriving DecidableEq

/-- Effects that move the map viewport (`view.setCenter` / `view.setZoom`). -/
def Eff.isViewportMove : Eff → Bool
  | .setCenter _ => true
  | .setZoom _ => true
  | _ => false

/-- State read and written by `geolocation.js` through the `map_data.js`
accessors, together with the module-local `hasInitialFix` flag and the map
view.  `map_data.js` itself is a pure accessor/mutator store (spec §4.1),
so it is represented directly by the record fields. -/
structure GeoState where
  mapReady : Bool
  geoSupported : Bool
  center : Coord
  zoom : ℚ
  markerFeature : Option Coord
  accuracyFeature : Option (Coord × ℚ)
  currentPos : Option (ℚ × ℚ)
  currentAccuracy : Option ℚ
  following : Bool
  watchId : Option ℕ
  hasInitialFix : Bool
deriving DecidableEq

/-- Threshold (meters) under which a GPS reading is considered reliable:
`const GPS_RELIABLE_THRESHOLD = 150`. -/
def GPS_RELIABLE_THRESHOLD : ℚ := 150

/-- Source constant `const ENABLE_AUTO_CENTER_ON_START = true`. -/
def ENABLE_AUTO_CENTER_ON_START : Bool := true

/-- JavaScript truthiness of the stored watch handle, as tested by
`if (getWatchId())`: `null` and `0` are falsy, any other id is truthy. -/
def truthyWatch : Option ℕ → Bool
  | none => false
  | some n => n != 0

/-- Model of `handlePosition(pos, forceInitialCenter)`: updates the position
store and marker/accuracy-circle features, applies the first-fix rule and
the steady-state accuracy-gated recentring rule, and emits status text.
Returns the new state and the list of effects in program order. -/
def handlePosition (s : GeoState) (pos : GeoPosition) (forceInitialCenter : Bool) :
    GeoState × List Eff :=
  if !s.mapReady then
    (s, [.status .mapNotInit])
  else
    let lon := pos.longitude
    let lat := pos.latitude
    let accuracy := pos.accuracy
    let coord := fromLonLat lon lat
    let shouldCenter := s.markerFeature.isNone
    let s2 : GeoState :=
      { s with
        currentPos := some (lon, lat)
        currentAccuracy := some accuracy
        markerFeature := some coord
        accuracyFeature := some (coord, accuracy) }
    if !s2.hasInitialFix && ENABLE_AUTO_CENTER_ON_START then
      ({ s2 with center := coord, zoom := max 16 s2.zoom, hasInitialFix := true },
       [.setCenter coord, .setZoom (max 16 s2.zoom), .status (.initialFix accuracy)])
    else
      if (shouldCenter || forceInitialCenter || s2.following) ∧
          accuracy ≤ GPS_RELIABLE_THRESHOLD then
        ({ s2 with center := coord, zoom := max 16 s2.zoom },
         [.setCenter coord, .setZoom (max 16 s2.zoom),
          .status (if accuracy > GPS_RELIABLE_THRESHOLD then .lowAccuracy accuracy
                   else .active accuracy s2.following)])
      else
        (s2,
         [.status (if accuracy > GPS_RELIABLE_THRESHOLD then .lowAccuracy accuracy
                   else .active accuracy s2.following)])

/-- Model of `startWatching(forceInitialCenter)`.  The fresh watch id is
supplied by the environment (`navigator.geolocation.watchPosition`).  After
subscribing, the source executes `toggleFollowingState(FontFaceSetLoadEvent)`;
`FontFaceSetLoadEvent` is the global DOM constructor, a truthy value, so the
stored follow flag becomes truthy — modelled as `following := true`. -/
def startWatching (s : GeoState) (freshId : ℕ) : GeoState × List Eff :=
  if !s.geoSupported then
    (s, [.status .geoUnsupported])
  else if truthyWatch s.watchId then
    (s, [.status .alreadyWatching])
  else
    ({ s with watchId := some freshId, following := true }, [.watchPositionCall])

/-- Model of `stopWatching()`: active watch is cleared, follow mode off,
`hasInitialFix` reset. -/
def stopWatching (s : GeoState) : GeoState × List Eff :=
  if truthyWatch s.watchId then
    ({ s with watchId := none, following := false, hasInitialFix := false },
     [.clearWatchCall, .status .stopped])
  else
    (s, [])

/-- Model of `toggleFollow()`: flips the follow flag and reports. -/
def toggleFollow (s : GeoState) : GeoState × List Eff :=
  let s1 : GeoState := { s with following := !s.following }
  (s1, [.status (if s1.following then .followOn else .followOff),
        .setFollowButton s1.following])

/-- Model of `disableFollowOnMapDrag()`, wired to the map `pointerdrag`
event in `map_init.js`: clears follow mode if it was on. -/
def disableFollowOnMapDrag (s : GeoState) : GeoState × List Eff :=
  if s.following then
    ({ s with following := false },
     [.status .followDisabledByDrag, .setFollowButton false])
  else
    (s, [])

/-! Concrete states and sensor payloads used to exercise the model. -/
/-- Idle session: map ready, geolocation supported, nothing tracked yet. -/
def idleGeoState : GeoState :=
  { mapReady := true, geoSupported := true, center := ⟨0, 0⟩, zoom := 10,
    markerFeature := none, accuracyFeature := none, currentPos := none,
    currentAccuracy := none, following := false, watchId := none,
    hasInitialFix := false }

/-- Mid-session state: first fix already consumed, marker exists, watch 5
active, follow mode off. -/
def wSteadyState : GeoState :=
  { mapReady := true, geoSupported := true, center := ⟨0, 0⟩, zoom := 10,
    markerFeature := some ⟨9, 9⟩, accuracyFeature := some (⟨9, 9⟩, 30),
    currentPos := some (9, 9), currentAccuracy := some 30, following := false,
    watchId := some 5, hasInitialFix := true }

/-- Mid-session state with follow mode on. -/
def wFollowState : GeoState :=
  { wSteadyState with following := true }

/-- Sensor callback with a reliable 50 m accuracy. -/
def wPos50 : GeoPosition := { latitude := 1, longitude := 2, accuracy := 50 }

/-- Sensor callback with a poor 200 m accuracy. -/
def wPos200 : GeoPosition := { latitude := 3, longitude := 4, accuracy := 200 }

/-! Map render surface: `static/js/map_utils.js`.

Rendered features are identified by their unique id (`ol.util.getUid`); the
vector source is the list of ids currently in the source.  Following the
source's own handling — `clearRoute` wraps the removal of traffic and
incident features in try/catch with the comment "feature already removed",
while the removals of the route line and the A/B markers are unguarded —
`removeFeature` is modelled as raising when the feature is not present. -/
/-- A lon/lat pair as used by the route logic (`{lon, lat}`). -/
structure LonLat where
  lon : ℚ
  lat : ℚ
deriving DecidableEq

/-- Value of a GeoJSON feature's `properties.feature_type` tag, as far as
the classification in `drawRouteOnMap` distinguishes values: the four
recognized tags, any other (truthy) string, the empty string, and an absent
property. -/
inductive FeatureTag where
  | routeReference
  | routeBasic
  | trafficSegmentTag
  | trafficIncidentTag
  | otherTag
  | emptyTag
  | absentTag
deriving DecidableEq

/-- JavaScript falsiness of the tag (`!f.properties?.feature_type`):
absent (`undefined`) or the empty string. -/
def tagFalsy : FeatureTag → Bool
  | .absentTag => true
  | .emptyTag => true
  | _ => false

/-- A GeoJSON feature of a route response, reduced to the data the feature
classification reads: the `feature_type` tag and whether the geometry is a
`LineString`. -/
structure GeoFeature where
  tag : FeatureTag
  isLineString : Bool
deriving DecidableEq

/-- Classification `routeFeatures` of `drawRouteOnMap`: declared route
tags, or untyped `LineString` geometry as backward-compatible fallback. -/
def isRouteFeature (f : GeoFeature) : Bool :=
  f.tag == .routeReference || f.tag == .routeBasic ||
    (tagFalsy f.tag && f.isLineString)

/-- Classification `trafficSegments` of `drawRouteOnMap`. -/
def isTrafficSegment (f : GeoFeature) : Bool :=
  f.tag == .trafficSegmentTag

/-- Classification `incidents` of `drawRouteOnMap`. -/
def isIncidentFeature (f : GeoFeature) : Bool :=
  f.tag == .trafficIncidentTag

/-- State owned by `map_utils.js` and the `map_data.js` slots it reads and
writes: the vector source (`none` while uninitialized), the tracked route
line (`rotatual`), the A/B markers, the stored route coordinates, the two
module-level arrays `trafficFeatures` / `incidentFeatures`, and a fresh-id
counter for newly created features. -/
structure MapState where
  hasMap : Bool
  vectorSource : Option (List ℕ)
  rotatual : Option ℕ
  originMarker : Option ℕ
  destinationMarker : Option ℕ
  originCoords : Option LonLat
  destinationCoords : Option LonLat
  trafficFeatures : List ℕ
  incidentFeatures : List ℕ
  nextUid : ℕ
deriving DecidableEq

/-- Model of `vectorSource.removeFeature(f)`: raises when the feature is
not in the source (the behaviour the source's try/catch guards against). -/
def removeFeatureE (src : List ℕ) (uid : ℕ) : Except Unit (List ℕ) :=
  if uid ∈ src then .ok (src.erase uid) else .error ()

/-- Conditional removal `if (f) vectorSource.removeFeature(f)`. -/
def removeOptE (src : List ℕ) : Option ℕ → Except Unit (List ℕ)
  | none => .ok src
  | some u => removeFeatureE src u

/-- Unguarded `forEach(f => vectorSource.removeFeature(f))`: the first
missing feature raises. -/
def removeAllE : List ℕ → List ℕ → Except Unit (List ℕ)
  | src, [] => .ok src
  | src, u :: us =>
    match removeFeatureE src u with
    | .ok src' => removeAllE src' us
    | .error e => .error e

/-- Guarded `forEach(f => { try { vectorSource.removeFeature(f) } catch {} })`:
a missing feature is skipped.  Erasing an absent element is the identity, so
the guarded loop is a fold of `List.erase`. -/
def removeAllCaught (src : List ℕ) (us : List ℕ) : List ℕ :=
  us.foldl List.erase src

/-- Model of `clearRoute()`: route line, A/B markers, traffic segments and
incident features are removed (the latter two with the try/catch guard) and
the stored coordinates are reset; does nothing when the vector source does
not exist yet. -/
def clearRoute (st : MapState) : Except Unit MapState :=
  match st.vectorSource with
  | none => .ok st
  | some src =>
    match removeOptE src st.rotatual with
    | .error e => .error e
    | .ok src1 =>
    match removeOptE src1 st.originMarker with
    | .error e => .error e
    | .ok src2 =>
    match removeOptE src2 st.destinationMarker with
    | .error e => .error e
    | .ok src3 =>
    let src4 := removeAllCaught src3 st.trafficFeatures
    let src5 := removeAllCaught src4 st.incidentFeatures
    .ok { st with
          vectorSource := some src5
          rotatual := none
          originMarker := none
          destinationMarker := none
          trafficFeatures := []
          incidentFeatures := []
          originCoords := none
          destinationCoords := none }

/-- Model of `drawRouteOnMap(geojsonResult)`: returns the state unchanged
when the map, the vector source or the argument is missing; otherwise first
removes the previous route line and all tracked traffic/incident features
(unguarded removals), then classifies the incoming features and adds one
route-line feature (when a route feature is present, visible or fully
transparent), one feature per traffic segment and one per incident, tracking
the new ids.  Summary extraction and the viewport fit are UI outputs that do
not touch feature state and are not modelled. -/
def drawRouteOnMap (st : MapState) (geojson : Option (List GeoFeature)) :
    Except Unit MapState :=
  match geojson, st.hasMap, st.vectorSource with
  | some features, true, some src =>
    match removeOptE src st.rotatual with
    | .error e => .error e
    | .ok src1 =>
    match removeAllE src1 st.trafficFeatures with
    | .error e => .error e
    | .ok src2 =>
    match removeAllE src2 st.incidentFeatures with
    | .error e => .error e
    | .ok src3 =>
    if features.isEmpty then
      .ok { st with
            vectorSource := some src3
            rotatual := none
            trafficFeatures := []
            incidentFeatures := [] }
    else
      let routeFs := features.filter isRouteFeature
      let nTraffic := (features.filter isTrafficSegment).length
      let nIncidents := (features.filter isIncidentFeature).length
      let (src4, rot, next1) :=
        if routeFs.isEmpty then (src3, (none : Option ℕ), st.nextUid)
        else (src3 ++ [st.nextUid], some st.nextUid, st.nextUid + 1)
      let tUids := List.range' next1 nTraffic
      let next2 := next1 + nTraffic
      let iUids := List.range' next2 nIncidents
      let next3 := next2 + nIncidents
      .ok { st with
            vectorSource := some (src4 ++ tUids ++ iUids)
            rotatual := rot
            trafficFeatures := tUids
            incidentFeatures := iUids
            nextUid := next3 }
  | _, _, _ => .ok st

/-- The feature ids of the current route overlay: route line, traffic
segments, incident markers. -/
def MapState.overlayUids (st : MapState) : List ℕ :=
  st.rotatual.toList ++ st.trafficFeatures ++ st.incidentFeatures

/-- Consistency of the render-surface bookkeeping: the source exists, holds
each feature at most once, contains every tracked overlay feature, the
tracked overlay ids are pairwise distinct, and every id in the source is
below the fresh-id counter. -/
def MapState.Inv (st : MapState) : Prop :=
  ∃ src, st.vectorSource = some src ∧ src.Nodup ∧
    (∀ u ∈ st.overlayUids, u ∈ src) ∧ st.overlayUids.Nodup ∧
    (∀ u ∈ src, u < st.nextUid)

/-- A sequence of `drawRoute` calls, stopping at the first raised error. -/
def drawSeq (st : MapState) : List (List GeoFeature) → Except Unit MapState
  | [] => .ok st
  | fs :: rest =>
    match drawRouteOnMap st (some fs) with
    | .ok st' => drawSeq st' rest
    | .error e => .error e

/-- Render state with a previous overlay: feature 0 is an unrelated feature
(e.g. the GPS dot), 1 is the tracked route line, 2 and 3 the A/B markers. -/
def wMapState : MapState :=
  { hasMap := true, vectorSource := some [0, 1, 2, 3], rotatual := some 1,
    originMarker := some 2, destinationMarker := some 3,
    originCoords := some ⟨1, 2⟩, destinationCoords := some ⟨3, 4⟩,
    trafficFeatures := [], incidentFeatures := [], nextUid := 4 }

/-- A route result with two traffic segments and no incident. -/
def wDrawInput1 : List GeoFeature :=
  [⟨.trafficSegmentTag, false⟩, ⟨.trafficSegmentTag, false⟩, ⟨.routeReference, true⟩]

/-- A route result with one traffic segment and one incident. -/
def wDrawInput2 : List GeoFeature :=
  [⟨.routeBasic, true⟩, ⟨.trafficSegmentTag, false⟩, ⟨.trafficIncidentTag, false⟩]

/-- C6 state in which the route line tracked by `rotatual` was already
removed from the vector source by a concurrent operation. -/
def c6StaleState : MapState :=
  { hasMap := true, vectorSource := some [], rotatual := some 1,
    originMarker := none, destinationMarker := none,
    originCoords := none, destinationCoords := none,
    trafficFeatures := [], incidentFeatures := [], nextUid := 2 }

/-- Overlay state for the C6 witness: route line 1 and markers 2/3 present;
traffic list tracks 4 (present) and 9 (already removed concurrently),
incident list tracks 5 (present) and 8 (already removed concurrently). -/
def wClearState : MapState :=
  { hasMap := true, vectorSource := some [0, 1, 2, 3, 4, 5], rotatual := some 1,
    originMarker := some 2, destinationMarker := some 3,
    originCoords := some ⟨1, 2⟩, destinationCoords := some ⟨3, 4⟩,
    trafficFeatures := [4, 9], incidentFeatures := [5, 8], nextUid := 6 }

/-! Route orchestration: `static/js/route_logic.js`.

Effects of a route request are recorded in program order.  The external
collaborators are passed as oracles: `parseCoord` stands for the pure
helper `parseCoordinateString` (its string parsing is not itself under
proof), and `geocodeNet` stands for the network geocoding response (`none`
covers network failure, not-found and session expiry, all of which abort
the flow).  The literal token `GPS` is the string the source compares
`originInput.toUpperCase()` against. -/
/-- The literal origin token `'GPS'`. -/
def gpsToken : String := "GPS"

/-- Model of JavaScript `toUpperCase()` (character-wise uppercasing, which
is all the ASCII inputs compared against `'GPS'` need). -/
def jsToUpperCase (s : String) : String := ⟨s.data.map Char.toUpper⟩

/-- Status/UI messages emitted by the route logic via `showMessage` and
`showOptimizationStatus`. -/
inductive RMsg where
  | noServerUrl
  | calculating
  | calculatingCoords
  | gpsImprecise (acc : ℚ)
  | gpsOriginSet
  | gpsUnavailable
  | geocodeFailed
  | optimizing
deriving DecidableEq

/-- Observable effects of the route logic, in program order: clearing the
previous overlay, user messages, network requests, storing coordinates,
waiting for the map-ready signal, drawing the A/B markers, and the legacy
console warning. -/
inductive REff where
  | clearRouteCall
  | showMsg (m : RMsg)
  | netGeocode (address : String)
  | netRouteFetch (origin destination : LonLat) (withConstraints : Bool)
  | storeCoords (origin destination : LonLat)
  | waitMapReady
  | drawMarkersCall
  | consoleWarnBusy
  | removeRouteCall
deriving DecidableEq

/-- Effects that hit the network (`fetch` of geocoding or routing). -/
def REff.isNet : REff → Bool
  | .netGeocode _ => true
  | .netRouteFetch _ _ _ => true
  | _ => false

/-- Effects that report the unreliable-GPS rejection. -/
def REff.isImprecise : REff → Bool
  | .showMsg (.gpsImprecise _) => true
  | _ => false

/-- User-selected routing constraints, read fresh from the UI at request
time (`getRouteConstraints`); the values are opaque here. -/
structure RouteConstraints where
  avoid : List ℕ
  prefer : List ℕ
deriving DecidableEq

/-- JavaScript truthiness of the stored accuracy as tested by
`if (acc && acc > ACC_THRESHOLD)`: `undefined`/`null` and `0` are falsy. -/
def truthyAcc : Option ℚ → Bool
  | none => false
  | some a => a != 0

/-- Numeric value of the stored accuracy (0 when absent; only read under a
truthiness guard). -/
def accVal : Option ℚ → ℚ
  | none => 0
  | some a => a

/-- Model of `geocodeAddress(address)`: aborts when the API base URL is
unset; a coordinate-shaped input resolves locally without a network call;
otherwise one geocoding request is issued and the oracle's answer decides
success or failure. -/
def geocodeAddress (apiBase : Bool) (parseCoord geocodeNet : String → Option LonLat)
    (address : String) : Option LonLat × List REff :=
  if !apiBase then
    (none, [.showMsg .noServerUrl])
  else
    match parseCoord address with
    | some c => (some c, [])
    | none =>
      match geocodeNet address with
      | some c => (some c, [.netGeocode address])
      | none => (none, [.netGeocode address, .showMsg .geocodeFailed])

/-- Model of `fetchRouteData(origin, destination, constraints)` up to the
issuance of the route request: the function reads no in-flight flag, so its
behaviour cannot depend on whether another computation is pending. -/
def fetchRouteData (apiBase : Bool) (origin destination : LonLat)
    (withConstraints : Bool) : List REff :=
  if !apiBase then
    [.showMsg .noServerUrl]
  else
    [.netRouteFetch origin destination withConstraints]

/-- Model of `calculateRouteFromAddresses(originInput, destinationInput)`:
clears the previous overlay, resolves the origin (the token `GPS` uses the
stored position, rejected when the stored accuracy is truthy and above the
150 m threshold), geocodes the destination, stores the coordinates, waits
for map-ready, draws the A/B markers, reads the constraints, and calls
`fetchRouteData`; each stage short-circuits on failure. -/
def calculateRouteFromAddresses (apiBase : Bool)
    (parseCoord geocodeNet : String → Option LonLat)
    (constraints : RouteConstraints)
    (currentPos : Option LonLat) (currentAccuracy : Option ℚ)
    (originInput destinationInput : String) : List REff :=
  let pre : List REff := [.clearRouteCall, .showMsg .calculating]
  let originStep : Option LonLat × List REff :=
    if jsToUpperCase originInput == gpsToken then
      match currentPos with
      | some p =>
        if truthyAcc currentAccuracy ∧ accVal currentAccuracy > GPS_RELIABLE_THRESHOLD then
          (none, [.showMsg (.gpsImprecise (accVal currentAccuracy))])
        else
          (some p, [.showMsg .gpsOriginSet])
      | none => (none, [.showMsg .gpsUnavailable])
    else
      geocodeAddress apiBase parseCoord geocodeNet originInput
  match originStep with
  | (none, effs1) => pre ++ effs1
  | (some originCoords, effs1) =>
    match geocodeAddress apiBase parseCoord geocodeNet destinationInput with
    | (none, effs2) => pre ++ effs1 ++ effs2
    | (some destCoords, effs2) =>
      let hasC := !constraints.avoid.isEmpty || !constraints.prefer.isEmpty
      pre ++ effs1 ++ effs2 ++
        [.storeCoords originCoords destCoords, .waitMapReady, .drawMarkersCall] ++
        (if hasC then [.showMsg .optimizing] else []) ++
        fetchRouteData apiBase originCoords destCoords hasC

/-- Model of `calculateAndDrawRoute(origin, destination)` (the function the
current code installs as `window.drawRoute`): like the address variant but
with coordinates given directly; it consults no in-flight flag. -/
def calculateAndDrawRoute (apiBase : Bool) (constraints : RouteConstraints)
    (origin destination : LonLat) : List REff :=
  let hasC := !constraints.avoid.isEmpty || !constraints.prefer.isEmpty
  [.clearRouteCall, .showMsg .calculatingCoords,
   .storeCoords origin destination, .waitMapReady, .drawMarkersCall] ++
    (if hasC then [.showMsg .optimizing] else []) ++
    fetchRouteData apiBase origin destination hasC

/-- State of the legacy `route_logic.js` variant, which guards
`window.drawRoute` with the module-global `is_drawing_route` flag. -/
structure LegacyRouteState where
  is_drawing_route : Bool
deriving DecidableEq

/-- Model of the legacy `window.drawRoute` entry up to its `fetch('/rota')`
call: when a drawing is already in progress the request is dropped with
only a console warning (`console.warn`, not a user-facing status), and the
state is unchanged; otherwise the flag is set, the previous route layer is
removed and the request is issued. -/
def legacyDrawRouteStart (s : LegacyRouteState) (origin destination : LonLat) :
    LegacyRouteState × List REff :=
  if s.is_drawing_route then
    (s, [.consoleWarnBusy])
  else
    ({ is_drawing_route := true },
     [.removeRouteCall, .netRouteFetch origin destination false])

/-- Two route computations interleaved at the await point: the second
request is issued while the first one's response is still pending.  The
modern pipeline carries no in-flight state, so the trace is the
concatenation of the two synchronous prefixes. -/
def interleavedRouteRequests (apiBase : Bool) (constraints : RouteConstraints)
    (o1 d1 o2 d2 : LonLat) : List REff :=
  calculateAndDrawRoute apiBase constraints o1 d1 ++
    calculateAndDrawRoute apiBase constraints o2 d2

/-- Oracle standing for `parseCoordinateString` on a non-coordinate input. -/
def noParse : String → Option LonLat := fun _ => none

/-- Geocoding oracle resolving every address to (9, 9). -/
def geocodeFixed : String → Option LonLat := fun _ => some ⟨9, 9⟩

/-- No routing constraints selected. -/
def noConstraints : RouteConstraints := ⟨[], []⟩

/-- A free-text destination address. -/
def wDestAddress : String := "Av Paulista 100"

/-! The claims and their supporting lemmas. -/

/-- Characterization of the steady-state recentring decision of
`handlePosition`: past the first fix, the recenter effect is emitted iff
(marker just created ∨ forced ∨ follow mode) ∧ accuracy ≤ threshold. -/
theorem handlePositionSteadyCenter (s : GeoState) (pos : GeoPosition) (force : Bool)
    (hmap : s.mapReady = true) (hfix : s.hasInitialFix = true) :
    Eff.setCenter (fromLonLat pos.longitude pos.latitude) ∈
        (handlePosition s pos force).2 ↔
      ((s.markerFeature = none ∨ force = true ∨ s.following = true) ∧
        pos.accuracy ≤ GPS_RELIABLE_THRESHOLD) := by
  have hbool : (s.markerFeature.isNone || force || s.following) = true ↔
      (s.markerFeature = none ∨ force = true ∨ s.following = true) := by
    simp [Option.isNone_iff_eq_none, or_assoc]
  by_cases hc : (s.markerFeature.isNone || force || s.following) = true ∧
      pos.accuracy ≤ GPS_RELIABLE_THRESHOLD
  · simp only [handlePosition, hmap, hfix, ENABLE_AUTO_CENTER_ON_START,
      Bool.not_true, Bool.false_and, Bool.and_true, Bool.false_eq_true,
      if_false, if_pos hc]
    exact iff_of_true (List.mem_cons_self _ _) ⟨hbool.mp hc.1, hc.2⟩
  · simp only [handlePosition, hmap, hfix, ENABLE_AUTO_CENTER_ON_START,
      Bool.not_true, Bool.false_and, Bool.and_true, Bool.false_eq_true,
      if_false, if_neg hc]
    apply iff_of_false
    · simp
    · intro hcond
      exact hc ⟨hbool.mpr hcond.1, hcond.2⟩

/-- C1: after the first fix of a tracking session, a location callback
recenters the viewport on the new position iff (the marker feature was just
created ∨ the caller forced initial centering ∨ follow mode is active) ∧
accuracy ≤ 150 m; a callback above 150 m still updates the stored position
and the accuracy circle but emits no viewport move. -/
theorem steadyStateRecenterIff (s : GeoState) (pos : GeoPosition) (force : Bool)
    (hmap : s.mapReady = true) (hfix : s.hasInitialFix = true) :
    (Eff.setCenter (fromLonLat pos.longitude pos.latitude) ∈ (handlePosition s pos force).2 ↔
      ((s.markerFeature = none ∨ force = true ∨ s.following = true) ∧
        pos.accuracy ≤ GPS_RELIABLE_THRESHOLD)) ∧
    (GPS_RELIABLE_THRESHOLD < pos.accuracy →
      (handlePosition s pos force).1.currentPos = some (pos.longitude, pos.latitude) ∧
      (handlePosition s pos force).1.currentAccuracy = some pos.accuracy ∧
      (handlePosition s pos force).1.accuracyFeature =
        some (fromLonLat pos.longitude pos.latitude, pos.accuracy) ∧
      (∀ e ∈ (handlePosition s pos force).2, e.isViewportMove = false) ∧
      (handlePosition s pos force).1.center = s.center ∧
      (handlePosition s pos force).1.zoom = s.zoom) := by
  refine ⟨handlePositionSteadyCenter s pos force hmap hfix, ?_⟩
  intro hacc
  have hc : ¬((s.markerFeature.isNone || force || s.following) = true ∧
      pos.accuracy ≤ GPS_RELIABLE_THRESHOLD) := by
    rintro ⟨-, h⟩
    exact absurd h (not_le.mpr hacc)
  simp only [handlePosition, hmap, hfix, ENABLE_AUTO_CENTER_ON_START,
    Bool.not_true, Bool.false_and, Bool.and_true, Bool.false_eq_true,
    if_false, if_neg hc]
  refine ⟨by trivial, by trivial, by trivial, ?_, by trivial, by trivial⟩
  intro e he
  simp only [List.mem_singleton] at he
  subst he
  rfl

/-- C1 witness: the theorem applied to a concrete mid-session state and a
concrete 200 m callback. -/
theorem steadyStateRecenterIff_witness :
    wSteadyState.mapReady = true ∧ wSteadyState.hasInitialFix = true ∧
    ((Eff.setCenter (fromLonLat wPos200.longitude wPos200.latitude) ∈
        (handlePosition wSteadyState wPos200 false).2 ↔
      ((wSteadyState.markerFeature = none ∨ false = true ∨
          wSteadyState.following = true) ∧
        wPos200.accuracy ≤ GPS_RELIABLE_THRESHOLD)) ∧
    (GPS_RELIABLE_THRESHOLD < wPos200.accuracy →
      (handlePosition wSteadyState wPos200 false).1.currentPos =
        some (wPos200.longitude, wPos200.latitude) ∧
      (handlePosition wSteadyState wPos200 false).1.currentAccuracy =
        some wPos200.accuracy ∧
      (handlePosition wSteadyState wPos200 false).1.accuracyFeature =
        some (fromLonLat wPos200.longitude wPos200.latitude, wPos200.accuracy) ∧
      (∀ e ∈ (handlePosition wSteadyState wPos200 false).2,
        e.isViewportMove = false) ∧
      (handlePosition wSteadyState wPos200 false).1.center = wSteadyState.center ∧
      (handlePosition wSteadyState wPos200 false).1.zoom = wSteadyState.zoom)) :=
  ⟨rfl, rfl, steadyStateRecenterIff wSteadyState wPos200 false rfl rfl⟩

/-- C2: the very first accepted callback after tracking is (re)started
always recenters on the reported position and raises the zoom to at least
16, regardless of accuracy, and emits exactly the first-fix effects (the
steady-state policy is skipped); stopping an active watch resets the
first-fix flag so a restarted session behaves the same way. -/
theorem firstFixAlwaysRecenters (s : GeoState) (pos : GeoPosition) (force : Bool)
    (hmap : s.mapReady = true) (hfix : s.hasInitialFix = false) :
    (handlePosition s pos force).2 =
      [Eff.setCenter (fromLonLat pos.longitude pos.latitude),
       Eff.setZoom (max 16 s.zoom),
       Eff.status (Msg.initialFix pos.accuracy)] ∧
    (handlePosition s pos force).1.center = fromLonLat pos.longitude pos.latitude ∧
    (handlePosition s pos force).1.zoom = max 16 s.zoom ∧
    (16 : ℚ) ≤ (handlePosition s pos force).1.zoom ∧
    (handlePosition s pos force).1.hasInitialFix = true ∧
    (∀ t : GeoState, truthyWatch t.watchId = true →
      (stopWatching t).1.hasInitialFix = false) := by
  simp only [handlePosition, hmap, hfix, ENABLE_AUTO_CENTER_ON_START,
    Bool.not_true, Bool.not_false, Bool.false_and, Bool.true_and, Bool.and_true,
    if_false, if_true]
  refine ⟨rfl, rfl, rfl, le_max_left 16 s.zoom, rfl, ?_⟩
  intro t ht
  simp [stopWatching, ht]

/-- C2 witness: the theorem applied to the idle session and a concrete
poor-accuracy callback. -/
theorem firstFixAlwaysRecenters_witness :
    idleGeoState.mapReady = true ∧ idleGeoState.hasInitialFix = false ∧
    ((handlePosition idleGeoState wPos200 false).2 =
      [Eff.setCenter (fromLonLat wPos200.longitude wPos200.latitude),
       Eff.setZoom (max 16 idleGeoState.zoom),
       Eff.status (Msg.initialFix wPos200.accuracy)] ∧
    (handlePosition idleGeoState wPos200 false).1.center =
      fromLonLat wPos200.longitude wPos200.latitude ∧
    (handlePosition idleGeoState wPos200 false).1.zoom = max 16 idleGeoState.zoom ∧
    (16 : ℚ) ≤ (handlePosition idleGeoState wPos200 false).1.zoom ∧
    (handlePosition idleGeoState wPos200 false).1.hasInitialFix = true ∧
    (∀ t : GeoState, truthyWatch t.watchId = true →
      (stopWatching t).1.hasInitialFix = false)) :=
  ⟨rfl, rfl, firstFixAlwaysRecenters idleGeoState wPos200 false rfl rfl⟩

/-- C3: starting tracking while a watch handle is set (JS-truthy, as the
source tests with `if (getWatchId())`) is rejected with a single status
message: the state — in particular the stored watch handle — is unchanged
and no second `watchPosition` subscription is created. -/
theorem startWhileWatchingRejected (s : GeoState) (freshId : ℕ)
    (h : truthyWatch s.watchId = true) :
    (startWatching s freshId).1 = s ∧
    (∃ m, (startWatching s freshId).2 = [Eff.status m]) ∧
    Eff.watchPositionCall ∉ (startWatching s freshId).2 := by
  by_cases hg : s.geoSupported = true
  · simp [startWatching, hg, h]
  · simp only [Bool.not_eq_true] at hg
    simp [startWatching, hg]

/-- C3 witness: the theorem applied to a state with active watch 5. -/
theorem startWhileWatchingRejected_witness :
    truthyWatch wSteadyState.watchId = true ∧
    ((startWatching wSteadyState 9).1 = wSteadyState ∧
    (∃ m, (startWatching wSteadyState 9).2 = [Eff.status m]) ∧
    Eff.watchPositionCall ∉ (startWatching wSteadyState 9).2) :=
  ⟨rfl, startWhileWatchingRejected wSteadyState 9 rfl⟩

/-- C7 counterexample: follow mode is on, the render surface is initialized
and the session is past its first fix, yet a 200 m callback emits no
viewport move at all — the claim "every accepted position update recenters
the map, regardless of the reported accuracy" is false on the code. -/
theorem followLowAccuracyNoRecenter :
    wFollowState.following = true ∧ wFollowState.mapReady = true ∧
    (handlePosition wFollowState wPos200 false).2.all
      (fun e => !e.isViewportMove) = true ∧
    (handlePosition wFollowState wPos200 false).1.center = wFollowState.center := by
  decide

/-- C7 (amended): while the render surface is initialized and follow mode is
true, a position callback recenters the map on the reported position iff it
is the session's first fix or its accuracy is at most 150 m; steady-state
callbacks above 150 m do not recenter even in follow mode. -/
theorem followModeRecenterAccuracyGated (s : GeoState) (pos : GeoPosition) (force : Bool)
    (hf : s.following = true) (hmap : s.mapReady = true) :
    Eff.setCenter (fromLonLat pos.longitude pos.latitude) ∈ (handlePosition s pos force).2 ↔
      (s.hasInitialFix = false ∨ pos.accuracy ≤ GPS_RELIABLE_THRESHOLD) := by
  by_cases hfix : s.hasInitialFix = true
  · rw [handlePositionSteadyCenter s pos force hmap hfix]
    simp [hf, hfix]
  · simp only [Bool.not_eq_true] at hfix
    simp only [handlePosition, hmap, hfix, ENABLE_AUTO_CENTER_ON_START,
      Bool.not_true, Bool.not_false, Bool.false_and, Bool.true_and, Bool.and_true,
      if_false, if_true]
    simp [hfix]

/-- C7 (amended) witness: at a follow-mode state past the first fix, a 50 m
callback satisfies the accuracy gate (so the recenter effect is present). -/
theorem followModeRecenterAccuracyGated_witness :
    wFollowState.following = true ∧ wFollowState.mapReady = true ∧
    (Eff.setCenter (fromLonLat wPos50.longitude wPos50.latitude) ∈
        (handlePosition wFollowState wPos50 false).2 ↔
      (wFollowState.hasInitialFix = false ∨
        wPos50.accuracy ≤ GPS_RELIABLE_THRESHOLD)) :=
  ⟨rfl, rfl, followModeRecenterAccuracyGated wFollowState wPos50 false rfl rfl⟩

/-- C8: evaluation of the code at the failing input.  From the idle state
(follow mode off, no active watch), a plain start-tracking request — not a
user toggle — leaves follow mode set: the source ends `startWatching` with
`toggleFollowingState(FontFaceSetLoadEvent)`, storing a truthy value.  The
drag half of the claim does hold: a map drag always leaves follow mode off. -/
theorem startWatchingSetsFollowMode :
    idleGeoState.following = false ∧
    (startWatching idleGeoState 1).1.following = true ∧
    (∀ s : GeoState, (disableFollowOnMapDrag s).1.following = false) := by
  refine ⟨rfl, rfl, ?_⟩
  intro s
  by_cases h : s.following = true
  · simp [disableFollowOnMapDrag, h]
  · simp only [Bool.not_eq_true] at h
    simp [disableFollowOnMapDrag, h]

/-! Helper lemmas about the removal primitives. -/
theorem removeFeatureE_ok {src : List ℕ} {u : ℕ} (h : u ∈ src) :
    removeFeatureE src u = .ok (src.erase u) := by
  simp [removeFeatureE, h]

theorem removeOptE_ok_of_mem {src : List ℕ} :
    ∀ {o : Option ℕ}, (∀ u ∈ o.toList, u ∈ src) →
      removeOptE src o = .ok (src.diff o.toList)
  | none, _ => by simp [removeOptE]
  | some u, h => by
    have hu : u ∈ src := h u (by simp)
    simp [removeOptE, removeFeatureE_ok hu]

theorem removeAllCaught_eq_diff (src us : List ℕ) :
    removeAllCaught src us = src.diff us :=
  (List.diff_eq_foldl src us).symm

theorem removeAllE_ok (us : List ℕ) : ∀ src : List ℕ, src.Nodup → us.Nodup →
    (∀ u ∈ us, u ∈ src) → removeAllE src us = .ok (src.diff us) := by
  induction us with
  | nil =>
    intro src _ _ _
    simp [removeAllE]
  | cons u us ih =>
    intro src hnd hund hsub
    have hu : u ∈ src := hsub u (List.mem_cons_self u us)
    have hstep : removeAllE src (u :: us) = removeAllE (src.erase u) us := by
      simp [removeAllE, removeFeatureE_ok hu]
    rw [hstep, List.diff_cons]
    refine ih (src.erase u) (hnd.erase u) hund.of_cons ?_
    intro v hv
    have hvne : v ≠ u := fun hvu => (List.nodup_cons.mp hund).1 (hvu ▸ hv)
    exact (List.mem_erase_of_ne hvne).mpr (hsub v (List.mem_cons_of_mem u hv))

theorem nodup_append_of_bounds {l₁ l₂ : List ℕ} {b : ℕ}
    (h₁ : l₁.Nodup) (h₂ : l₂.Nodup)
    (hb₁ : ∀ u ∈ l₁, u < b) (hb₂ : ∀ u ∈ l₂, b ≤ u) :
    (l₁ ++ l₂).Nodup := by
  rw [List.nodup_append]
  exact ⟨h₁, h₂, fun u hu₁ hu₂ => absurd (hb₂ u hu₂) (not_le.mpr (hb₁ u hu₁))⟩

theorem twoRanges_facts (a n m : ℕ) :
    (List.range' a n ++ List.range' (a + n) m).Nodup ∧
    (∀ u ∈ List.range' a n ++ List.range' (a + n) m, a ≤ u ∧ u < a + n + m) := by
  constructor
  · refine nodup_append_of_bounds (List.nodup_range' _ _) (List.nodup_range' _ _)
      (b := a + n) ?_ ?_
    · intro u hu
      rw [List.mem_range'_1] at hu
      omega
    · intro u hu
      rw [List.mem_range'_1] at hu
      omega
  · intro u hu
    rcases List.mem_append.mp hu with h | h <;> rw [List.mem_range'_1] at h <;> omega

theorem drawRouteOnMap_step (st : MapState) (features : List GeoFeature) (src : List ℕ)
    (hm : st.hasMap = true) (hsrc : st.vectorSource = some src) (hnd : src.Nodup)
    (hsub : ∀ u ∈ st.overlayUids, u ∈ src) (hod : st.overlayUids.Nodup)
    (hlt : ∀ u ∈ src, u < st.nextUid) :
    ∃ st' src', drawRouteOnMap st (some features) = .ok st' ∧
      st'.hasMap = true ∧ st'.vectorSource = some src' ∧ src'.Nodup ∧
      (∀ u ∈ st'.overlayUids, u ∈ src') ∧ st'.overlayUids.Nodup ∧
      (∀ u ∈ src', u < st'.nextUid) ∧
      st'.trafficFeatures.length = (features.filter isTrafficSegment).length ∧
      st'.incidentFeatures.length = (features.filter isIncidentFeature).length ∧
      (∀ u, u ∈ src' ↔ ((u ∈ src ∧ u ∉ st.overlayUids) ∨ u ∈ st'.overlayUids)) ∧
      (∀ u ∈ st'.overlayUids, st.nextUid ≤ u) := by
  have hmemO : ∀ u, u ∈ st.overlayUids ↔
      u ∈ st.rotatual.toList ∨ u ∈ st.trafficFeatures ∨ u ∈ st.incidentFeatures := by
    intro u
    simp [MapState.overlayUids, or_assoc]
  have hodparts := hod
  rw [MapState.overlayUids, List.nodup_append] at hodparts
  obtain ⟨hndRT, hndI, hdisRTI⟩ := hodparts
  rw [List.nodup_append] at hndRT
  obtain ⟨hndR, hndT, hdisRT⟩ := hndRT
  have hsubR : ∀ u ∈ st.rotatual.toList, u ∈ src :=
    fun u hu => hsub u ((hmemO u).mpr (Or.inl hu))
  have hsubT : ∀ u ∈ st.trafficFeatures, u ∈ src :=
    fun u hu => hsub u ((hmemO u).mpr (Or.inr (Or.inl hu)))
  have hsubI : ∀ u ∈ st.incidentFeatures, u ∈ src :=
    fun u hu => hsub u ((hmemO u).mpr (Or.inr (Or.inr hu)))
  have h1 : removeOptE src st.rotatual = .ok (src.diff st.rotatual.toList) :=
    removeOptE_ok_of_mem hsubR
  have hnd1 : (src.diff st.rotatual.toList).Nodup := hnd.diff
  have hsubT1 : ∀ u ∈ st.trafficFeatures, u ∈ src.diff st.rotatual.toList := by
    intro u hu
    exact hnd.mem_diff_iff.mpr ⟨hsubT u hu, fun hr => hdisRT hr hu⟩
  have h2 : removeAllE (src.diff st.rotatual.toList) st.trafficFeatures =
      .ok ((src.diff st.rotatual.toList).diff st.trafficFeatures) :=
    removeAllE_ok _ _ hnd1 hndT hsubT1
  have hnd2 : ((src.diff st.rotatual.toList).diff st.trafficFeatures).Nodup := hnd1.diff
  have hsubI2 : ∀ u ∈ st.incidentFeatures,
      u ∈ (src.diff st.rotatual.toList).diff st.trafficFeatures := by
    intro u hu
    refine hnd1.mem_diff_iff.mpr ⟨?_, fun ht => hdisRTI (List.mem_append_right _ ht) hu⟩
    exact hnd.mem_diff_iff.mpr ⟨hsubI u hu, fun hr => hdisRTI (List.mem_append_left _ hr) hu⟩
  have h3 : removeAllE ((src.diff st.rotatual.toList).diff st.trafficFeatures)
        st.incidentFeatures =
      .ok (((src.diff st.rotatual.toList).diff st.trafficFeatures).diff st.incidentFeatures) :=
    removeAllE_ok _ _ hnd2 hndI hsubI2
  have hcleared_eq :
      ((src.diff st.rotatual.toList).diff st.trafficFeatures).diff st.incidentFeatures =
        src.diff st.overlayUids := by
    rw [MapState.overlayUids, List.diff_append, List.diff_append]
  have hclmem : ∀ u, u ∈ src.diff st.overlayUids ↔ u ∈ src ∧ u ∉ st.overlayUids :=
    fun u => hnd.mem_diff_iff
  have hclnd : (src.diff st.overlayUids).Nodup := hnd.diff
  have hcllt : ∀ u ∈ src.diff st.overlayUids, u < st.nextUid :=
    fun u hu => hlt u (List.diff_subset _ _ hu)
  by_cases hfe : features.isEmpty = true
  · have hfeat : features = [] := List.isEmpty_iff.mp hfe
    refine ⟨{ st with
              vectorSource := some (src.diff st.overlayUids)
              rotatual := none
              trafficFeatures := []
              incidentFeatures := [] }, src.diff st.overlayUids,
      by simp only [drawRouteOnMap, hsrc, hm, h1, h2, h3, hcleared_eq, hfe, if_true], ?_⟩
    subst hfeat
    refine ⟨hm, rfl, hclnd, ?_, ?_, ?_, ?_, ?_, ?_, ?_⟩
    · intro u hu
      simp [MapState.overlayUids] at hu
    · simp [MapState.overlayUids]
    · exact hcllt
    · simp
    · simp
    · intro u
      simp only [MapState.overlayUids, Option.toList_none, List.append_nil,
        List.nil_append, List.not_mem_nil, or_false]
      exact hclmem u
    · intro u hu
      simp [MapState.overlayUids] at hu
  · rw [Bool.not_eq_true] at hfe
    simp only [drawRouteOnMap, hsrc, hm, h1, h2, h3, hcleared_eq, hfe, Bool.false_eq_true,
      if_false]
    by_cases hre : (features.filter isRouteFeature).isEmpty = true
    · simp only [hre, if_true]
      have h2r := twoRanges_facts st.nextUid (features.filter isTrafficSegment).length
        (features.filter isIncidentFeature).length
      refine ⟨_, _, rfl, rfl, rfl, ?_, ?_, ?_, ?_, ?_, ?_, ?_, ?_⟩
      · rw [List.append_assoc]
        exact nodup_append_of_bounds hclnd h2r.1 hcllt (fun u hu => (h2r.2 u hu).1)
      · intro u hu
        simp only [MapState.overlayUids, Option.toList_none, List.nil_append] at hu
        simp only [List.mem_append] at hu ⊢
        tauto
      · simp only [MapState.overlayUids, Option.toList_none, List.nil_append]
        exact h2r.1
      · intro u hu
        dsimp only
        simp only [List.mem_append] at hu
        rcases hu with (h | h) | h
        · have := hcllt u h
          omega
        · have := (h2r.2 u (List.mem_append_left _ h)).2
          omega
        · have := (h2r.2 u (List.mem_append_right _ h)).2
          omega
      · simp
      · simp
      · intro u
        have hc := hclmem u
        simp only [MapState.overlayUids, Option.toList_none, List.nil_append,
          List.mem_append] at hc ⊢
        rw [hc]
        tauto
      · intro u hu
        simp only [MapState.overlayUids, Option.toList_none, List.nil_append] at hu
        exact (h2r.2 u hu).1
    · rw [Bool.not_eq_true] at hre
      simp only [hre, Bool.false_eq_true, if_false]
      have h2r := twoRanges_facts (st.nextUid + 1) (features.filter isTrafficSegment).length
        (features.filter isIncidentFeature).length
      refine ⟨_, _, rfl, rfl, rfl, ?_, ?_, ?_, ?_, ?_, ?_, ?_, ?_⟩
      · simp only [List.append_assoc]
        refine nodup_append_of_bounds hclnd ?_ hcllt ?_
        · refine nodup_append_of_bounds (List.nodup_singleton _) h2r.1
            (b := st.nextUid + 1) ?_ ?_
          · intro u hu
            simp only [List.mem_singleton] at hu
            omega
          · exact fun u hu => (h2r.2 u hu).1
        · intro u hu
          simp only [List.mem_append, List.mem_singleton] at hu
          rcases hu with h | h | h
          · omega
          · have := (h2r.2 u (List.mem_append_left _ h)).1
            omega
          · have := (h2r.2 u (List.mem_append_right _ h)).1
            omega
      · intro u hu
        simp only [MapState.overlayUids, Option.toList_some] at hu
        simp only [List.mem_append] at hu ⊢
        tauto
      · simp only [MapState.overlayUids, Option.toList_some]
        rw [List.append_assoc]
        refine nodup_append_of_bounds (List.nodup_singleton _) h2r.1
          (b := st.nextUid + 1) ?_ ?_
        · intro u hu
          simp only [List.mem_singleton] at hu
          omega
        · exact fun u hu => (h2r.2 u hu).1
      · intro u hu
        dsimp only
        simp only [List.mem_append, List.mem_singleton] at hu
        rcases hu with ((h | h) | h) | h
        · have := hcllt u h
          omega
        · omega
        · have := (h2r.2 u (List.mem_append_left _ h)).2
          omega
        · have := (h2r.2 u (List.mem_append_right _ h)).2
          omega
      · simp
      · simp
      · intro u
        have hc := hclmem u
        simp only [MapState.overlayUids, Option.toList_some, List.mem_append,
          List.mem_singleton] at hc ⊢
        rw [hc]
        tauto
      · intro u hu
        simp only [MapState.overlayUids, Option.toList_some, List.mem_append,
          List.mem_singleton] at hu
        rcases hu with (h | h) | h
        · omega
        · have := (h2r.2 u (List.mem_append_left _ h)).1
          omega
        · have := (h2r.2 u (List.mem_append_right _ h)).1
          omega

/-- C5: `drawRoute` removes the previous route overlay (route line, all
traffic-segment features, all incident features) before adding any feature
of the new result.  Consequently, from any consistent render state, after
any nonempty sequence of `drawRoute` calls the rendered traffic and
incident feature counts equal the counts in the most recent input, the
tracked overlay features are all in the source, and every feature id left
in the source either belongs to the most recent overlay or predates the
whole sequence and was never an overlay feature — no feature from an
earlier input remains. -/
theorem drawRouteStaleFree (st : MapState) (src₀ : List ℕ)
    (inputs : List (List GeoFeature))
    (hm : st.hasMap = true) (hsrc : st.vectorSource = some src₀)
    (hnd : src₀.Nodup) (hsub : ∀ u ∈ st.overlayUids, u ∈ src₀)
    (hod : st.overlayUids.Nodup) (hlt : ∀ u ∈ src₀, u < st.nextUid)
    (hne : inputs ≠ []) :
    ∃ st' src', drawSeq st inputs = .ok st' ∧ st'.vectorSource = some src' ∧
      st'.trafficFeatures.length =
        ((inputs.getLast hne).filter isTrafficSegment).length ∧
      st'.incidentFeatures.length =
        ((inputs.getLast hne).filter isIncidentFeature).length ∧
      (∀ u ∈ st'.overlayUids, u ∈ src') ∧
      (∀ u ∈ src', u ∈ st'.overlayUids ∨ (u ∈ src₀ ∧ u ∉ st.overlayUids)) := by
  induction inputs generalizing st src₀ with
  | nil => exact absurd rfl hne
  | cons fs rest ih =>
    obtain ⟨st1, src1, hdraw, hm1, hsrc1, hnd1, hsub1, hod1, hlt1, htl, hil, hmem1, _⟩ :=
      drawRouteOnMap_step st fs src₀ hm hsrc hnd hsub hod hlt
    by_cases hrest : rest = []
    · subst hrest
      refine ⟨st1, src1, by simp [drawSeq, hdraw], hsrc1, ?_, ?_, hsub1, ?_⟩
      · simpa using htl
      · simpa using hil
      · intro u hu
        rcases (hmem1 u).mp hu with h | h
        · exact Or.inr h
        · exact Or.inl h
    · obtain ⟨st2, src2, hseq2, hsrc2, htl2, hil2, hsub2, hmem2⟩ :=
        ih st1 src1 hm1 hsrc1 hnd1 hsub1 hod1 hlt1 hrest
      refine ⟨st2, src2, by simp [drawSeq, hdraw, hseq2], hsrc2, ?_, ?_, hsub2, ?_⟩
      · rwa [List.getLast_cons hrest]
      · rwa [List.getLast_cons hrest]
      · intro u hu
        rcases hmem2 u hu with h | h
        · exact Or.inl h
        · rcases (hmem1 u).mp h.1 with h' | h'
          · exact Or.inr h'
          · exact absurd h' h.2

/-- C5 witness: two successive `drawRoute` calls with different feature
counts; the final rendered counts match the second input only, and nothing
outside the final overlay except the pre-existing non-overlay features
remains. -/
theorem drawRouteStaleFree_witness :
    ∃ st' src', drawSeq wMapState [wDrawInput1, wDrawInput2] = .ok st' ∧
      st'.vectorSource = some src' ∧
      st'.trafficFeatures.length = 1 ∧ st'.incidentFeatures.length = 1 ∧
      (∀ u ∈ st'.overlayUids, u ∈ src') ∧
      (∀ u ∈ src', u ∈ st'.overlayUids ∨
        (u ∈ [0, 1, 2, 3] ∧ u ∉ wMapState.overlayUids)) := by
  obtain ⟨st', src', h1, h2, h3, h4, h5, h6⟩ :=
    drawRouteStaleFree wMapState [0, 1, 2, 3] [wDrawInput1, wDrawInput2]
      rfl rfl (by decide) (by decide) (by decide) (by decide) (by decide)
  exact ⟨st', src', h1, h2, h3.trans (by decide), h4.trans (by decide), h5, h6⟩

/-- C6 counterexample: `clearRoute` raises when the tracked route line was
already removed by a concurrent operation — only the traffic and incident
removal loops are wrapped in try/catch, the route-line and marker removals
are not.  This falsifies the claim that `clearAll` never raises when a
feature it removes was already removed. -/
theorem clearRouteRaisesOnStaleRouteLine :
    c6StaleState.rotatual = some 1 ∧ c6StaleState.vectorSource = some [] ∧
    clearRoute c6StaleState = .error () :=
  ⟨rfl, rfl, rfl⟩

/-- C6 (amended): when the tracked route line and A/B markers are absent or
actually present in the source (and pairwise distinct), `clearRoute`
succeeds: it removes the route line, both markers, every tracked traffic
and incident feature (raising on none of the traffic/incident features even
if already removed by a concurrent operation — the hypotheses put no
constraint on them), resets the stored coordinates, and is idempotent: a
second call returns the same state and raises no error. -/
theorem clearRouteIdempotent (st : MapState) (src : List ℕ)
    (hsrc : st.vectorSource = some src) (hnd : src.Nodup)
    (hmem : ∀ u ∈ st.rotatual.toList ++ st.originMarker.toList ++
      st.destinationMarker.toList, u ∈ src)
    (hdist : (st.rotatual.toList ++ st.originMarker.toList ++
      st.destinationMarker.toList).Nodup) :
    ∃ st' src', clearRoute st = .ok st' ∧
      st'.vectorSource = some src' ∧
      st'.rotatual = none ∧ st'.originMarker = none ∧
      st'.destinationMarker = none ∧
      st'.trafficFeatures = [] ∧ st'.incidentFeatures = [] ∧
      st'.originCoords = none ∧ st'.destinationCoords = none ∧
      (∀ u ∈ st.rotatual.toList ++ st.originMarker.toList ++
        st.destinationMarker.toList, u ∉ src') ∧
      (∀ u ∈ st.trafficFeatures, u ∉ src') ∧
      (∀ u ∈ st.incidentFeatures, u ∉ src') ∧
      clearRoute st' = .ok st' := by
  rw [List.nodup_append] at hdist
  obtain ⟨hndRO, hndD, hdisROD⟩ := hdist
  rw [List.nodup_append] at hndRO
  obtain ⟨hndR, hndO, hdisRO⟩ := hndRO
  have hmemR : ∀ u ∈ st.rotatual.toList, u ∈ src :=
    fun u hu => hmem u (List.mem_append_left _ (List.mem_append_left _ hu))
  have hmemO : ∀ u ∈ st.originMarker.toList, u ∈ src :=
    fun u hu => hmem u (List.mem_append_left _ (List.mem_append_right _ hu))
  have hmemD : ∀ u ∈ st.destinationMarker.toList, u ∈ src :=
    fun u hu => hmem u (List.mem_append_right _ hu)
  have h1 : removeOptE src st.rotatual = .ok (src.diff st.rotatual.toList) :=
    removeOptE_ok_of_mem hmemR
  have h2 : removeOptE (src.diff st.rotatual.toList) st.originMarker =
      .ok ((src.diff st.rotatual.toList).diff st.originMarker.toList) := by
    refine removeOptE_ok_of_mem ?_
    intro u hu
    exact hnd.mem_diff_iff.mpr ⟨hmemO u hu, fun hr => hdisRO hr hu⟩
  have h3 : removeOptE ((src.diff st.rotatual.toList).diff st.originMarker.toList)
        st.destinationMarker =
      .ok (((src.diff st.rotatual.toList).diff st.originMarker.toList).diff
        st.destinationMarker.toList) := by
    refine removeOptE_ok_of_mem ?_
    intro u hu
    refine hnd.diff.mem_diff_iff.mpr ⟨?_, fun ho =>
      hdisROD (List.mem_append_right _ ho) hu⟩
    exact hnd.mem_diff_iff.mpr ⟨hmemD u hu, fun hr =>
      hdisROD (List.mem_append_left _ hr) hu⟩
  have hfinal : ∀ u, u ∈ ((((src.diff st.rotatual.toList).diff
        st.originMarker.toList).diff st.destinationMarker.toList).diff
        st.trafficFeatures).diff st.incidentFeatures ↔
      u ∈ src ∧ u ∉ st.rotatual.toList ++ st.originMarker.toList ++
        st.destinationMarker.toList ++ st.trafficFeatures ++
        st.incidentFeatures := by
    intro u
    have : ((((src.diff st.rotatual.toList).diff st.originMarker.toList).diff
          st.destinationMarker.toList).diff st.trafficFeatures).diff
          st.incidentFeatures =
        src.diff (st.rotatual.toList ++ st.originMarker.toList ++
          st.destinationMarker.toList ++ st.trafficFeatures ++
          st.incidentFeatures) := by
      simp only [List.diff_append]
    rw [this]
    exact hnd.mem_diff_iff
  refine ⟨{ st with
            vectorSource := some (((((src.diff st.rotatual.toList).diff
              st.originMarker.toList).diff st.destinationMarker.toList).diff
              st.trafficFeatures).diff st.incidentFeatures)
            rotatual := none
            originMarker := none
            destinationMarker := none
            trafficFeatures := []
            incidentFeatures := []
            originCoords := none
            destinationCoords := none },
    _, ?_, rfl, rfl, rfl, rfl, rfl, rfl, rfl, rfl, ?_, ?_, ?_, ?_⟩
  · simp only [clearRoute, hsrc, h1, h2, h3, removeAllCaught_eq_diff]
  · intro u hu
    rw [hfinal u]
    rintro ⟨-, hnot⟩
    apply hnot
    simp only [List.mem_append] at hu ⊢
    tauto
  · intro u hu
    rw [hfinal u]
    rintro ⟨-, hnot⟩
    apply hnot
    simp only [List.mem_append]
    tauto
  · intro u hu
    rw [hfinal u]
    rintro ⟨-, hnot⟩
    apply hnot
    simp only [List.mem_append]
    tauto
  · rfl

/-- C6 (amended) witness: the theorem applied to a concrete overlay in
which one traffic and one incident feature were already removed. -/
theorem clearRouteIdempotent_witness :
    ∃ st' src', clearRoute wClearState = .ok st' ∧
      st'.vectorSource = some src' ∧
      st'.rotatual = none ∧ st'.originMarker = none ∧
      st'.destinationMarker = none ∧
      st'.trafficFeatures = [] ∧ st'.incidentFeatures = [] ∧
      st'.originCoords = none ∧ st'.destinationCoords = none ∧
      (∀ u ∈ wClearState.rotatual.toList ++ wClearState.originMarker.toList ++
        wClearState.destinationMarker.toList, u ∉ src') ∧
      (∀ u ∈ wClearState.trafficFeatures, u ∉ src') ∧
      (∀ u ∈ wClearState.incidentFeatures, u ∉ src') ∧
      clearRoute st' = .ok st' :=
  clearRouteIdempotent wClearState [0, 1, 2, 3, 4, 5] rfl (by decide)
    (by decide) (by decide)

/-- Helper: the optional optimization-status message is never the
unreliable-GPS rejection. -/
theorem any_isImprecise_ite (b : Bool) :
    (if b then [REff.showMsg .optimizing] else ([] : List REff)).any
      REff.isImprecise = false := by
  cases b <;> rfl

/-- C4: evaluation of the code at the failing input.  Two route
computations interleaved at the await point (the second issued while the
first's response is pending): the current pipeline reads no in-flight flag,
so both network requests are issued — the trace is two full synchronous
prefixes, holds two `netRouteFetch` effects, and contains no rejection of
the second request.  Only the legacy `window.drawRoute` variant guarded by
`is_drawing_route` drops an overlapping request, and even it emits only a
console warning, not a user-facing status message. -/
theorem concurrentRouteRequestsNotRejected :
    interleavedRouteRequests true ⟨[], []⟩ ⟨1, 2⟩ ⟨3, 4⟩ ⟨5, 6⟩ ⟨7, 8⟩ =
      [.clearRouteCall, .showMsg .calculatingCoords, .storeCoords ⟨1, 2⟩ ⟨3, 4⟩,
       .waitMapReady, .drawMarkersCall, .netRouteFetch ⟨1, 2⟩ ⟨3, 4⟩ false,
       .clearRouteCall, .showMsg .calculatingCoords, .storeCoords ⟨5, 6⟩ ⟨7, 8⟩,
       .waitMapReady, .drawMarkersCall, .netRouteFetch ⟨5, 6⟩ ⟨7, 8⟩ false] ∧
    (interleavedRouteRequests true ⟨[], []⟩ ⟨1, 2⟩ ⟨3, 4⟩ ⟨5, 6⟩ ⟨7, 8⟩).countP
      REff.isNet = 2 ∧
    legacyDrawRouteStart ⟨true⟩ ⟨5, 6⟩ ⟨7, 8⟩ = (⟨true⟩, [.consoleWarnBusy]) :=
  ⟨rfl, rfl, rfl⟩

/-- C9: a route request whose origin is the literal token `GPS` (with a
stored position present) is rejected with the unreliable-GPS message and
issues no network request when the stored accuracy exceeds 150 m; with
accuracy at or below 150 m it proceeds: the origin is resolved from the
stored coordinates, and — when the destination geocodes to `d` — the route
request is issued with the stored coordinates as origin. -/
theorem gpsOriginAccuracyGate (parseCoord geocodeNet : String → Option LonLat)
    (c : RouteConstraints) (p : LonLat) (a : ℚ) (destInput : String) :
    (GPS_RELIABLE_THRESHOLD < a →
      calculateRouteFromAddresses true parseCoord geocodeNet c (some p) (some a)
          gpsToken destInput =
        [.clearRouteCall, .showMsg .calculating, .showMsg (.gpsImprecise a)] ∧
      ∀ e ∈ calculateRouteFromAddresses true parseCoord geocodeNet c (some p)
          (some a) gpsToken destInput, e.isNet = false) ∧
    (a ≤ GPS_RELIABLE_THRESHOLD →
      REff.showMsg .gpsOriginSet ∈ calculateRouteFromAddresses true parseCoord
        geocodeNet c (some p) (some a) gpsToken destInput ∧
      ∀ d : LonLat, parseCoord destInput = none → geocodeNet destInput = some d →
        REff.netRouteFetch p d (!c.avoid.isEmpty || !c.prefer.isEmpty) ∈
          calculateRouteFromAddresses true parseCoord geocodeNet c (some p)
            (some a) gpsToken destInput) := by
  have hgps : (jsToUpperCase gpsToken == gpsToken) = true := by decide
  constructor
  · intro ha
    have ha0 : a ≠ 0 := by
      intro h
      rw [h] at ha
      norm_num [GPS_RELIABLE_THRESHOLD] at ha
    have hcond : truthyAcc (some a) = true ∧ a > GPS_RELIABLE_THRESHOLD :=
      ⟨by simp [truthyAcc, ha0], ha⟩
    have heq : calculateRouteFromAddresses true parseCoord geocodeNet c (some p)
        (some a) gpsToken destInput =
        [.clearRouteCall, .showMsg .calculating, .showMsg (.gpsImprecise a)] := by
      simp only [calculateRouteFromAddresses, hgps, if_true, accVal]
      rw [if_pos hcond]
      rfl
    refine ⟨heq, ?_⟩
    rw [heq]
    intro e he
    simp only [List.mem_cons, List.not_mem_nil, or_false] at he
    rcases he with rfl | rfl | rfl <;> rfl
  · intro ha
    have hcond : ¬(truthyAcc (some a) = true ∧
        accVal (some a) > GPS_RELIABLE_THRESHOLD) := by
      rintro ⟨-, h⟩
      simp only [accVal, gt_iff_lt] at h
      exact absurd ha (not_le.mpr h)
    constructor
    · simp only [calculateRouteFromAddresses, hgps, if_true, if_neg hcond,
        geocodeAddress, Bool.not_true, Bool.false_eq_true, if_false]
      cases hpd : parseCoord destInput with
      | none =>
        cases hgd : geocodeNet destInput with
        | none => simp
        | some d0 => simp
      | some d0 => simp
    · intro d hpd hgd
      simp only [calculateRouteFromAddresses, hgps, if_true, if_neg hcond,
        geocodeAddress, Bool.not_true, Bool.false_eq_true, if_false, hpd, hgd,
        fetchRouteData]
      simp

/-- C9 witness: the theorem applied with stored accuracy 200 m (rejected,
no network effect) and 50 m (proceeds, route request carries the stored
origin (1, 2)). -/
theorem gpsOriginAccuracyGate_witness :
    (calculateRouteFromAddresses true noParse geocodeFixed noConstraints
        (some ⟨1, 2⟩) (some 200) gpsToken wDestAddress =
      [.clearRouteCall, .showMsg .calculating, .showMsg (.gpsImprecise 200)]) ∧
    REff.showMsg .gpsOriginSet ∈ calculateRouteFromAddresses true noParse
      geocodeFixed noConstraints (some ⟨1, 2⟩) (some 50) gpsToken wDestAddress ∧
    REff.netRouteFetch ⟨1, 2⟩ ⟨9, 9⟩ false ∈ calculateRouteFromAddresses true
      noParse geocodeFixed noConstraints (some ⟨1, 2⟩) (some 50) gpsToken
      wDestAddress := by
  refine ⟨((gpsOriginAccuracyGate noParse geocodeFixed noConstraints ⟨1, 2⟩ 200
    wDestAddress).1 (by norm_num [GPS_RELIABLE_THRESHOLD])).1, ?_, ?_⟩
  · exact ((gpsOriginAccuracyGate noParse geocodeFixed noConstraints ⟨1, 2⟩ 50
      wDestAddress).2 (by norm_num [GPS_RELIABLE_THRESHOLD])).1
  · have h := ((gpsOriginAccuracyGate noParse geocodeFixed noConstraints ⟨1, 2⟩ 50
      wDestAddress).2 (by norm_num [GPS_RELIABLE_THRESHOLD])).2 ⟨9, 9⟩ rfl rfl
    simpa [noConstraints] using h

/-- C10: with origin `GPS` and a stored position present, the
unreliable-GPS rejection message appears in the trace iff the stored
accuracy is JS-truthy (present and nonzero) and strictly above 150 m; in
particular any falsy stored accuracy (absent or exactly 0) skips the
rejection and the request proceeds using the stored coordinates. -/
theorem gpsAccuracyFalsySkipsRejection (parseCoord geocodeNet : String → Option LonLat)
    (c : RouteConstraints) (p : LonLat) (acc : Option ℚ) (destInput : String) :
    ((calculateRouteFromAddresses true parseCoord geocodeNet c (some p) acc
        gpsToken destInput).any REff.isImprecise = true ↔
      (truthyAcc acc = true ∧ accVal acc > GPS_RELIABLE_THRESHOLD)) ∧
    (truthyAcc acc = false →
      REff.showMsg .gpsOriginSet ∈ calculateRouteFromAddresses true parseCoord
        geocodeNet c (some p) acc gpsToken destInput) := by
  have hgps : (jsToUpperCase gpsToken == gpsToken) = true := by decide
  by_cases hcond : truthyAcc acc = true ∧ accVal acc > GPS_RELIABLE_THRESHOLD
  · have heq : calculateRouteFromAddresses true parseCoord geocodeNet c (some p)
        acc gpsToken destInput =
        [.clearRouteCall, .showMsg .calculating,
         .showMsg (.gpsImprecise (accVal acc))] := by
      simp only [calculateRouteFromAddresses, hgps, if_true]
      rw [if_pos hcond]
      rfl
    constructor
    · exact iff_of_true (by rw [heq]; rfl) hcond
    · intro hf
      rw [hf] at hcond
      exact absurd hcond.1 (by simp)
  · have hany : (calculateRouteFromAddresses true parseCoord geocodeNet c (some p)
        acc gpsToken destInput).any REff.isImprecise = false := by
      simp only [calculateRouteFromAddresses, hgps, if_true, if_neg hcond,
        geocodeAddress, Bool.not_true, Bool.false_eq_true, if_false]
      cases hpd : parseCoord destInput with
      | none =>
        cases hgd : geocodeNet destInput with
        | none => simp [REff.isImprecise]
        | some d0 => simp [REff.isImprecise, fetchRouteData, any_isImprecise_ite]
      | some d0 => simp [REff.isImprecise, fetchRouteData, any_isImprecise_ite]
    constructor
    · rw [hany]
      simp only [Bool.false_eq_true, false_iff]
      exact fun hc => hcond hc
    · intro hf
      simp only [calculateRouteFromAddresses, hgps, if_true, if_neg hcond,
        geocodeAddress, Bool.not_true, Bool.false_eq_true, if_false]
      cases hpd : parseCoord destInput with
      | none =>
        cases hgd : geocodeNet destInput with
        | none => simp
        | some d0 => simp
      | some d0 => simp

/-- C10 witness: stored accuracy exactly 0 (falsy) and absent both skip the
rejection, and the request proceeds from the stored coordinates. -/
theorem gpsAccuracyFalsySkipsRejection_witness :
    (calculateRouteFromAddresses true noParse geocodeFixed noConstraints
        (some ⟨1, 2⟩) (some 0) gpsToken wDestAddress).any REff.isImprecise = false ∧
    REff.showMsg .gpsOriginSet ∈ calculateRouteFromAddresses true noParse
      geocodeFixed noConstraints (some ⟨1, 2⟩) (some 0) gpsToken wDestAddress ∧
    REff.showMsg .gpsOriginSet ∈ calculateRouteFromAddresses true noParse
      geocodeFixed noConstraints (some ⟨1, 2⟩) none gpsToken wDestAddress := by
  have h1 := gpsAccuracyFalsySkipsRejection noParse geocodeFixed noConstraints
    ⟨1, 2⟩ (some 0) wDestAddress
  have h2 := gpsAccuracyFalsySkipsRejection noParse geocodeFixed noConstraints
    ⟨1, 2⟩ none wDestAddress
  refine ⟨?_, h1.2 (by decide), h2.2 rfl⟩
  cases hany : (calculateRouteFromAddresses true noParse geocodeFixed noConstraints
      (some ⟨1, 2⟩) (some 0) gpsToken wDestAddress).any REff.isImprecise
  · rfl
  · have hc := h1.1.mp hany
    rw [show truthyAcc (some 0) = false by decide] at hc
    exact absurd hc.1 (by simp)

end SmartRoute

